import Mathlib

/-!
Shallow embedding of `src/oqsprov/oqsprov_keys.c` (the OQS OpenSSL 3 key
handler) and proofs about its key-lifecycle operations.

Allocator and algorithm-resolver outcomes are external to the code, so each
operation that allocates takes them as explicit Boolean/Option oracles.
Byte buffers are `List Nat`; a C `NULL` pointer is `none`.
-/

/-- Owned resources of a key object, used to record what `oqsx_key_new`
allocates and what `oqsx_key_new` / `oqsx_key_free` release. -/
inductive Resource where
  | object
  | handle
  | tlsName
  | propq
  | privkey
  | pubkey
deriving DecidableEq, Repr

/-- Fields of the liboqs `OQS_KEM` descriptor read by this file. -/
structure OQS_KEM where
  length_secret_key : Nat
  length_public_key : Nat
  length_shared_secret : Nat
  claimed_nist_level : Nat
deriving DecidableEq, Repr

/-- Fields of the liboqs `OQS_SIG` descriptor read by this file. -/
structure OQS_SIG where
  length_secret_key : Nat
  length_public_key : Nat
  length_signature : Nat
  claimed_nist_level : Nat
deriving DecidableEq, Repr

/-- The union `{ OQS_KEM *k; OQS_SIG *s; }` of `OQSX_KEY`.  The source sets
the `iskem` tag and the union member together and keeps them consistent, so
the tag is modelled as derived from the active member (`OQSX_KEY.iskem`). -/
inductive KeyUnion where
  | k (h : OQS_KEM)
  | s (h : OQS_SIG)
deriving DecidableEq, Repr

/-- The `OQSX_KEY` structure.  `privkey`/`pubkey` are `none` when the C
pointer is `NULL`; `references` is the atomic reference count. -/
structure OQSX_KEY where
  key : KeyUnion
  privkey : Option (List Nat)
  pubkey : Option (List Nat)
  privkeylen : Nat
  pubkeylen : Nat
  tls_name : Option String
  propq : Option String
  references : Int
deriving DecidableEq, Repr

/-- The `iskem` tag, derived from the active union member (see `KeyUnion`). -/
def OQSX_KEY.iskem (key : OQSX_KEY) : Bool :=
  match key.key with
  | .k _ => true
  | .s _ => false

/-- Claimed NIST level of whichever descriptor is active. -/
def OQSX_KEY.claimed_nist_level (key : OQSX_KEY) : Nat :=
  match key.key with
  | .k h => h.claimed_nist_level
  | .s h => h.claimed_nist_level

/-- OpenSSL data-type code for octet strings (`OSSL_PARAM_OCTET_STRING`). -/
def OSSL_PARAM_OCTET_STRING : Nat := 5

/-- OpenSSL data-type code for UTF-8 strings, used as a wrongly-typed entry. -/
def OSSL_PARAM_UTF8_STRING : Nat := 4

/-- An `OSSL_PARAM` entry: name, declared data type, and payload bytes
(`data_size` is the payload length). -/
structure OSSL_PARAM where
  key : String
  data_type : Nat
  data : List Nat
deriving DecidableEq, Repr

/-- The `data_size` field of an `OSSL_PARAM` entry. -/
def OSSL_PARAM.data_size (p : OSSL_PARAM) : Nat := p.data.length

/-- The OpenSSL core name `OSSL_PKEY_PARAM_PRIV_KEY`. -/
def OSSL_PKEY_PARAM_PRIV_KEY : String := "priv"

/-- The OpenSSL core name `OSSL_PKEY_PARAM_PUB_KEY`. -/
def OSSL_PKEY_PARAM_PUB_KEY : String := "pub"

/-- Model of `OSSL_PARAM_locate_const`: the first entry with the given name. -/
def OSSL_PARAM_locate_const (params : List OSSL_PARAM) (name : String) :
    Option OSSL_PARAM :=
  params.find? (fun p => p.key == name)

/-- Result of `oqsx_key_new` (lines 36-72): a non-`NULL` key, a `NULL`
return, or the undefined behavior of dereferencing the `NULL` result of
`OQS_KEM_new`/`OQS_SIG_new` (lines 45-46 and 51-52 read through the handle
with no `NULL` check). -/
inductive NewResult where
  | ok (key : OQSX_KEY)
  | fail
  | crash
deriving DecidableEq, Repr

/-- Model of `oqsx_key_new` (lines 36-72).  `zallocOk` is the outcome of the
`OPENSSL_zalloc` of the object; `kemNew`/`sigNew` are what
`OQS_KEM_new oqs_name` / `OQS_SIG_new oqs_name` return (`none` = the name
does not resolve); `tlsOk`/`propqOk` are the outcomes of the two
`OPENSSL_strdup` calls.  Besides the result it returns the list of resources
allocated and the list of resources freed during the call. -/
def oqsx_key_new (zallocOk : Bool) (kemNew : Option OQS_KEM)
    (sigNew : Option OQS_SIG) (tlsOk propqOk : Bool) (tls_name : String)
    (is_kem : Bool) (propq : Option String) :
    NewResult × List Resource × List Resource :=
  if ¬ zallocOk then (.fail, [], [])
  else
    match (if is_kem then kemNew.map KeyUnion.k else sigNew.map KeyUnion.s) with
    | none => (.crash, [.object], [])
    | some u =>
      let privlen := match u with | .k h => h.length_secret_key | .s h => h.length_secret_key
      let publen := match u with | .k h => h.length_public_key | .s h => h.length_public_key
      let tlsCopy : Option String := if tlsOk then some tls_name else none
      let allocated := [Resource.object, Resource.handle] ++
        (if tlsOk then [Resource.tlsName] else [])
      match propq with
      | none =>
        (.ok { key := u, privkey := none, pubkey := none,
               privkeylen := privlen, pubkeylen := publen,
               tls_name := tlsCopy, propq := none, references := 1 },
         allocated, [])
      | some q =>
        if propqOk then
          (.ok { key := u, privkey := none, pubkey := none,
                 privkeylen := privlen, pubkeylen := publen,
                 tls_name := tlsCopy, propq := some q, references := 1 },
           allocated ++ [Resource.propq], [])
        else
          (.fail, allocated, [Resource.object])

/-- Model of `oqsx_key_free` (lines 74-98) on a possibly-`NULL` pointer.
Returns the new state of the pointed-to object (`none` once the object has
been deallocated) and the resources released by this call.  Lines 92-97
release the property string, the private and public key buffers, the
algorithm handle and the object — and not the `tls_name` copy. -/
def oqsx_key_free : Option OQSX_KEY → Option OQSX_KEY × List Resource
  | none => (none, [])
  | some key =>
    let refcnt : Int := key.references - 1
    if refcnt > 0 then (some { key with references := refcnt }, [])
    else (none, [.propq, .privkey, .pubkey, .handle, .object])

/-- The resources `oqsx_key_free` releases when the count reaches zero. -/
def releasedByFree : List Resource :=
  [.propq, .privkey, .pubkey, .handle, .object]

/-- Iterate `oqsx_key_free`, concatenating the release events. -/
def freeIter : Nat → Option OQSX_KEY → Option OQSX_KEY × List Resource
  | 0, st => (st, [])
  | n + 1, st =>
    let r1 := oqsx_key_free st
    let r2 := freeIter n r1.1
    (r2.1, r1.2 ++ r2.2)

/-- Model of `oqsx_key_up_ref` (lines 100-111): increments the count and
returns `refcnt > 1` for the post-increment value `refcnt`. -/
def oqsx_key_up_ref (key : OQSX_KEY) : OQSX_KEY × Bool :=
  let refcnt : Int := key.references + 1
  ({ key with references := refcnt }, decide (1 < refcnt))

/-- Model of `oqsx_key_allocate_keymaterial` (lines 113-121).  `allocPriv`
and `allocPub` are the outcomes of the two `OPENSSL_secure_zalloc` calls;
the function overwrites both buffer fields and returns `1` when either is
`NULL`, `0` otherwise. -/
def oqsx_key_allocate_keymaterial (allocPriv allocPub : Bool)
    (key : OQSX_KEY) : OQSX_KEY × Nat :=
  let key := { key with
    privkey := if allocPriv then some (List.replicate key.privkeylen 0) else none,
    pubkey := if allocPub then some (List.replicate key.pubkeylen 0) else none }
  if key.privkey = none ∨ key.pubkey = none then (key, 1) else (key, 0)

/-- The public-key block of `oqsx_key_fromdata` (lines 142-157).  On a type
mismatch it returns `0` with the key untouched; otherwise it frees the old
buffer, allocates a fresh one (`allocPub` is the allocator outcome; on
failure the field is left `NULL` with the old length) and copies
`data_size` bytes. -/
def fromdataPubBlock (allocPub : Bool) (key : OQSX_KEY)
    (params : List OSSL_PARAM) : OQSX_KEY × Nat :=
  match OSSL_PARAM_locate_const params OSSL_PKEY_PARAM_PUB_KEY with
  | none => (key, 1)
  | some p =>
    if p.data_type ≠ OSSL_PARAM_OCTET_STRING then (key, 0)
    else if allocPub then
      ({ key with pubkey := some p.data, pubkeylen := p.data_size }, 1)
    else
      ({ key with pubkey := none }, 0)

/-- The private-key block of `oqsx_key_fromdata` (lines 127-141), taking the
located private-key entry as an argument and falling through to the
public-key block.  On a type mismatch it returns `0` with the key untouched;
otherwise it frees the old buffer, allocates a fresh one (`allocPriv` is the
allocator outcome; on failure the field is left `NULL` with the old length)
and copies `data_size` bytes. -/
def fromdataPrivBlock (allocPriv allocPub : Bool) (key : OQSX_KEY)
    (params : List OSSL_PARAM) : Option OSSL_PARAM → OQSX_KEY × Nat
  | none => fromdataPubBlock allocPub key params
  | some p =>
    if p.data_type ≠ OSSL_PARAM_OCTET_STRING then (key, 0)
    else if allocPriv then
      fromdataPubBlock allocPub
        { key with privkey := some p.data, privkeylen := p.data_size } params
    else
      ({ key with privkey := none }, 0)

/-- Model of `oqsx_key_fromdata` (lines 123-158): the private-key block
(lines 127-141) followed by the public-key block.  The `include_private`
argument is accepted but — exactly as in the source — never read. -/
def oqsx_key_fromdata (allocPriv allocPub : Bool) (key : OQSX_KEY)
    (params : List OSSL_PARAM) (include_private : Bool) : OQSX_KEY × Nat :=
  fromdataPrivBlock allocPriv allocPub key params
    (OSSL_PARAM_locate_const params OSSL_PKEY_PARAM_PRIV_KEY)

/-- Model of `oqsx_key_parambits` (lines 170-174): the same formula on the
claimed NIST level of whichever descriptor is active. -/
def oqsx_key_parambits (key : OQSX_KEY) : Nat :=
  match key.key with
  | .k h => 128 + (h.claimed_nist_level - 1) / 2 * 64
  | .s h => 128 + (h.claimed_nist_level - 1) / 2 * 64

/-- Model of `oqsx_key_maxsize` (lines 176-180). -/
def oqsx_key_maxsize (key : OQSX_KEY) : Nat :=
  match key.key with
  | .k h => h.length_shared_secret
  | .s h => h.length_signature

/-- Concrete KEM descriptor used in witnesses and counterexamples. -/
def kemEx : OQS_KEM :=
  { length_secret_key := 16, length_public_key := 16,
    length_shared_secret := 16, claimed_nist_level := 1 }

/-- Concrete signature descriptor used in witnesses. -/
def sigEx : OQS_SIG :=
  { length_secret_key := 32, length_public_key := 32,
    length_signature := 64, claimed_nist_level := 3 }

/-- Concrete KEM key with no key material, used in witnesses. -/
def keyEx : OQSX_KEY :=
  { key := .k kemEx, privkey := none, pubkey := none,
    privkeylen := 16, pubkeylen := 16,
    tls_name := some "frodo640aes", propq := none, references := 1 }

/-- Concrete KEM key with reference count 2, used in witnesses. -/
def keyEx2 : OQSX_KEY :=
  { key := .k kemEx, privkey := none, pubkey := none,
    privkeylen := 16, pubkeylen := 16,
    tls_name := some "frodo640aes", propq := none, references := 2 }

/-- Concrete signature key used in witnesses. -/
def keySigEx : OQSX_KEY :=
  { key := .s sigEx, privkey := none, pubkey := none,
    privkeylen := 32, pubkeylen := 32,
    tls_name := some "dilithium2", propq := none, references := 1 }

/-- A validly-typed private-key parameter entry. -/
def privParamOk : OSSL_PARAM :=
  { key := OSSL_PKEY_PARAM_PRIV_KEY, data_type := OSSL_PARAM_OCTET_STRING,
    data := [1, 2, 3] }

/-- A wrongly-typed private-key parameter entry. -/
def privParamBad : OSSL_PARAM :=
  { key := OSSL_PKEY_PARAM_PRIV_KEY, data_type := OSSL_PARAM_UTF8_STRING,
    data := [1, 2, 3] }

/-- A validly-typed public-key parameter entry with 3 bytes (the advertised
public-key length of `kemEx` is 16). -/
def pubParamOk : OSSL_PARAM :=
  { key := OSSL_PKEY_PARAM_PUB_KEY, data_type := OSSL_PARAM_OCTET_STRING,
    data := [7, 8, 9] }

/-- A wrongly-typed public-key parameter entry. -/
def pubParamBad : OSSL_PARAM :=
  { key := OSSL_PKEY_PARAM_PUB_KEY, data_type := OSSL_PARAM_UTF8_STRING,
    data := [9, 9] }

/-! Theorems -/

/-- Helper: a successful `fromdataPubBlock` run on a located octet-string
public-key entry stores exactly that entry's bytes and length. -/
theorem fromdataPubBlock_success (a : Bool) (key : OQSX_KEY)
    (params : List OSSL_PARAM) (p : OSSL_PARAM)
    (hp : OSSL_PARAM_locate_const params OSSL_PKEY_PARAM_PUB_KEY = some p)
    (ht : p.data_type = OSSL_PARAM_OCTET_STRING)
    (hs : (fromdataPubBlock a key params).2 = 1) :
    (fromdataPubBlock a key params).1.pubkey = some p.data ∧
    (fromdataPubBlock a key params).1.pubkeylen = p.data.length := by
  cases a <;> simp [fromdataPubBlock, hp, ht, OSSL_PARAM.data_size] at hs ⊢

/-- C7: for every key object whose algorithm handle claims security level L,
`oqsx_key_parambits` returns exactly `128 + (L - 1) / 2 * 64`, the identical
formula for KEM and Signature keys; in particular 128 for L = 1, 192 for
L = 3 and 256 for L = 5. -/
theorem C7_parambits_formula (key : OQSX_KEY) :
    oqsx_key_parambits key = 128 + (key.claimed_nist_level - 1) / 2 * 64 ∧
    (key.claimed_nist_level = 1 → oqsx_key_parambits key = 128) ∧
    (key.claimed_nist_level = 3 → oqsx_key_parambits key = 192) ∧
    (key.claimed_nist_level = 5 → oqsx_key_parambits key = 256) := by
  have h : oqsx_key_parambits key = 128 + (key.claimed_nist_level - 1) / 2 * 64 := by
    cases hk : key.key <;>
      simp [oqsx_key_parambits, OQSX_KEY.claimed_nist_level, hk]
  exact ⟨h, fun hl => by rw [h, hl], fun hl => by rw [h, hl],
    fun hl => by rw [h, hl]⟩

/-- Witness for C7 at a Signature key of level 3 and a KEM key of level 1. -/
theorem C7_parambits_formula_witness :
    oqsx_key_parambits keySigEx = 192 ∧ oqsx_key_parambits keyEx = 128 :=
  ⟨(C7_parambits_formula keySigEx).2.2.1 rfl, (C7_parambits_formula keyEx).2.1 rfl⟩

/-- C9: `oqsx_key_up_ref` increments the reference count and returns success
if and only if the pre-increment count was not ≤ 0 (otherwise it reports the
use-after-free state by returning failure). -/
theorem C9_up_ref_increments (key : OQSX_KEY) :
    (oqsx_key_up_ref key).1.references = key.references + 1 ∧
    ((oqsx_key_up_ref key).2 = true ↔ ¬ key.references ≤ 0) := by
  refine ⟨rfl, ?_⟩
  simp only [oqsx_key_up_ref, decide_eq_true_eq]
  omega

/-- Witness for C9 on a key with reference count 1. -/
theorem C9_up_ref_increments_witness :
    (oqsx_key_up_ref keyEx).1.references = 2 ∧ (oqsx_key_up_ref keyEx).2 = true :=
  ⟨rfl, (C9_up_ref_increments keyEx).2.mpr (by decide)⟩

/-- C10: `oqsx_key_fromdata` on a parameter list containing neither a
private-key nor a public-key entry returns success and the key object with
every field unchanged. -/
theorem C10_fromdata_no_entries (a b : Bool) (key : OQSX_KEY)
    (params : List OSSL_PARAM) (ip : Bool)
    (hpriv : OSSL_PARAM_locate_const params OSSL_PKEY_PARAM_PRIV_KEY = none)
    (hpub : OSSL_PARAM_locate_const params OSSL_PKEY_PARAM_PUB_KEY = none) :
    oqsx_key_fromdata a b key params ip = (key, 1) := by
  simp [oqsx_key_fromdata, fromdataPrivBlock, fromdataPubBlock, hpriv, hpub]

/-- Witness for C10 on the empty parameter list. -/
theorem C10_fromdata_no_entries_witness :
    oqsx_key_fromdata true true keyEx [] true = (keyEx, 1) :=
  C10_fromdata_no_entries true true keyEx [] true rfl rfl

/-- C8: a successful `oqsx_key_fromdata` call whose located public-key entry
has octet-string type and carries N bytes leaves `pubkey` holding exactly
those bytes and `pubkeylen = N`, with no clamping to the advertised
length. -/
theorem C8_fromdata_pubkey_exact (a b : Bool) (key : OQSX_KEY)
    (params : List OSSL_PARAM) (ip : Bool) (p : OSSL_PARAM)
    (hp : OSSL_PARAM_locate_const params OSSL_PKEY_PARAM_PUB_KEY = some p)
    (ht : p.data_type = OSSL_PARAM_OCTET_STRING)
    (hs : (oqsx_key_fromdata a b key params ip).2 = 1) :
    (oqsx_key_fromdata a b key params ip).1.pubkey = some p.data ∧
    (oqsx_key_fromdata a b key params ip).1.pubkeylen = p.data.length := by
  unfold oqsx_key_fromdata at hs ⊢
  cases hq : OSSL_PARAM_locate_const params OSSL_PKEY_PARAM_PRIV_KEY with
  | none =>
    rw [hq] at hs
    simp only [fromdataPrivBlock] at hs ⊢
    exact fromdataPubBlock_success b key params p hp ht hs
  | some q =>
    rw [hq] at hs
    simp only [fromdataPrivBlock] at hs ⊢
    by_cases hqt : q.data_type = OSSL_PARAM_OCTET_STRING
    · have hcond : ¬ (q.data_type ≠ OSSL_PARAM_OCTET_STRING) := by simpa using hqt
      rw [if_neg hcond] at hs ⊢
      cases a
      · exact absurd hs Nat.zero_ne_one
      · exact fromdataPubBlock_success b _ params p hp ht hs
    · rw [if_pos hqt] at hs
      exact absurd hs Nat.zero_ne_one

/-- Witness for C8: a 3-byte public key imported into a key whose algorithm
advertises 16-byte public keys. -/
theorem C8_fromdata_pubkey_exact_witness :
    (oqsx_key_fromdata true true keyEx [pubParamOk] true).1.pubkey = some [7, 8, 9] ∧
    (oqsx_key_fromdata true true keyEx [pubParamOk] true).1.pubkeylen = 3 ∧
    keyEx.pubkeylen = 16 := by
  have h := C8_fromdata_pubkey_exact true true keyEx [pubParamOk] true pubParamOk
    rfl rfl rfl
  exact ⟨h.1, h.2, rfl⟩

/-- Counterexample to C2 as stated: on a list with a validly-typed
private-key entry followed by a wrongly-typed public-key entry,
`oqsx_key_fromdata` returns the failure value `0` yet has already replaced
the private key, so the existing key material is not left unchanged. -/
theorem C2_counterexample :
    (oqsx_key_fromdata true true keyEx [privParamOk, pubParamBad] true).2 = 0 ∧
    (oqsx_key_fromdata true true keyEx [privParamOk, pubParamBad] true).1.privkey
      = some [1, 2, 3] ∧
    keyEx.privkey = none :=
  ⟨rfl, rfl, rfl⟩

/-- C2 (amended): a wrongly-typed private-key entry aborts with failure and
the whole key unchanged; a wrongly-typed public-key entry yields failure
with the public-key buffer and length unchanged, but a validly-typed
private-key entry located in the same list has already been applied by
then. -/
theorem C2_amended_type_mismatch (a b : Bool) (key : OQSX_KEY)
    (params : List OSSL_PARAM) (ip : Bool) :
    (∀ p, OSSL_PARAM_locate_const params OSSL_PKEY_PARAM_PRIV_KEY = some p →
      p.data_type ≠ OSSL_PARAM_OCTET_STRING →
      oqsx_key_fromdata a b key params ip = (key, 0)) ∧
    (∀ q, OSSL_PARAM_locate_const params OSSL_PKEY_PARAM_PUB_KEY = some q →
      q.data_type ≠ OSSL_PARAM_OCTET_STRING →
      (oqsx_key_fromdata a b key params ip).2 = 0 ∧
      (oqsx_key_fromdata a b key params ip).1.pubkey = key.pubkey ∧
      (oqsx_key_fromdata a b key params ip).1.pubkeylen = key.pubkeylen) := by
  constructor
  · intro p hp hpt
    unfold oqsx_key_fromdata
    rw [hp]
    simp only [fromdataPrivBlock]
    rw [if_pos hpt]
  · intro q hq hqt
    unfold oqsx_key_fromdata
    cases hp : OSSL_PARAM_locate_const params OSSL_PKEY_PARAM_PRIV_KEY with
    | none =>
      simp only [fromdataPrivBlock, fromdataPubBlock, hq]
      rw [if_pos hqt]
      exact ⟨rfl, rfl, rfl⟩
    | some p =>
      simp only [fromdataPrivBlock]
      by_cases hpt : p.data_type = OSSL_PARAM_OCTET_STRING
      · have hcond : ¬ (p.data_type ≠ OSSL_PARAM_OCTET_STRING) := by simpa using hpt
        rw [if_neg hcond]
        cases a
        · exact ⟨rfl, rfl, rfl⟩
        · simp only [fromdataPubBlock, hq, if_true]
          rw [if_pos hqt]
          exact ⟨rfl, rfl, rfl⟩
      · rw [if_pos hpt]
        exact ⟨rfl, rfl, rfl⟩

/-- Witness for C2 (amended) at concrete inputs. -/
theorem C2_amended_type_mismatch_witness :
    oqsx_key_fromdata true true keyEx [privParamBad] true = (keyEx, 0) ∧
    (oqsx_key_fromdata true true keyEx [privParamOk, pubParamBad] true).1.pubkey
      = keyEx.pubkey :=
  ⟨(C2_amended_type_mismatch true true keyEx [privParamBad] true).1 privParamBad
      rfl (by decide),
   ((C2_amended_type_mismatch true true keyEx [privParamOk, pubParamBad] true).2
      pubParamBad rfl (by decide)).2.1⟩

/-- C3 (code bug): the `include_private` flag of `oqsx_key_fromdata` is
never read, so population of the private key is identical with the flag
clear or set; in particular with the flag clear a validly-typed private-key
entry still overwrites the private key of a key object that had none. -/
theorem C3_include_private_ignored :
    (∀ a b key params,
      oqsx_key_fromdata a b key params true = oqsx_key_fromdata a b key params false) ∧
    (oqsx_key_fromdata true true keyEx [privParamOk] false).1.privkey = some [1, 2, 3] ∧
    keyEx.privkey = none :=
  ⟨fun _ _ _ _ => rfl, rfl, rfl⟩

/-- C5 (code bug): when the algorithm name does not resolve
(`OQS_KEM_new`/`OQS_SIG_new` returns `NULL`), `oqsx_key_new` dereferences
the `NULL` handle (lines 46/52) instead of returning an error. -/
theorem C5_unknown_name_crashes (tlsOk propqOk : Bool) (tls : String)
    (propq : Option String) (is_kem : Bool) :
    (oqsx_key_new true none none tlsOk propqOk tls is_kem propq).1 = NewResult.crash := by
  cases is_kem <;> rfl

/-- Counterexample to C6 as stated: with the private-key allocation
succeeding and the public-key allocation failing, the function reports
failure but the private-key buffer it allocated is neither released nor
reset to the absent state. -/
theorem C6_counterexample :
    (oqsx_key_allocate_keymaterial true false keyEx).2 = 1 ∧
    (oqsx_key_allocate_keymaterial true false keyEx).1.privkey
      = some (List.replicate 16 0) :=
  ⟨rfl, rfl⟩

/-- C6 (amended): `oqsx_key_allocate_keymaterial` reports success exactly
when both allocations succeed, and after success both buffers hold exactly
`privkeylen`/`pubkeylen` zero bytes; but on partial failure the buffer
actually allocated stays attached to its field (nothing is released), only
the failed field is `NULL`, and the length fields are never changed. -/
theorem C6_amended_partial_failure (a b : Bool) (key : OQSX_KEY) :
    ((oqsx_key_allocate_keymaterial a b key).2 = 0 ↔ a = true ∧ b = true) ∧
    (oqsx_key_allocate_keymaterial a b key).1.privkey
      = (if a then some (List.replicate key.privkeylen 0) else none) ∧
    (oqsx_key_allocate_keymaterial a b key).1.pubkey
      = (if b then some (List.replicate key.pubkeylen 0) else none) ∧
    (oqsx_key_allocate_keymaterial a b key).1.privkeylen = key.privkeylen ∧
    (oqsx_key_allocate_keymaterial a b key).1.pubkeylen = key.pubkeylen := by
  cases a <;> cases b <;> simp [oqsx_key_allocate_keymaterial]

/-- Witness for C6 (amended) at concrete inputs. -/
theorem C6_amended_partial_failure_witness :
    (oqsx_key_allocate_keymaterial true false keyEx).1.pubkey = none ∧
    (oqsx_key_allocate_keymaterial true true keyEx).2 = 0 := by
  refine ⟨?_, (C6_amended_partial_failure true true keyEx).1.mpr ⟨rfl, rfl⟩⟩
  have h := (C6_amended_partial_failure true false keyEx).2.2.1
  simpa using h

/-- Helper: iterating `oqsx_key_free` on a `NULL` pointer does nothing. -/
theorem freeIter_none (m : Nat) : freeIter m none = (none, []) := by
  induction m with
  | zero => rfl
  | succ k ih => simp [freeIter, oqsx_key_free, ih]

/-- Helper: a free on a key with count ≥ 2 only decrements the count. -/
theorem oqsx_key_free_decrement (key : OQSX_KEY) (h : 1 < key.references) :
    oqsx_key_free (some key)
      = (some { key with references := key.references - 1 }, []) := by
  have hc : key.references - 1 > 0 := by omega
  simp only [oqsx_key_free]
  rw [if_pos hc]

/-- Helper: a free on a key with count ≤ 1 releases the owned resources. -/
theorem oqsx_key_free_release (key : OQSX_KEY) (h : key.references ≤ 1) :
    oqsx_key_free (some key) = (none, releasedByFree) := by
  have hc : ¬ (key.references - 1 > 0) := by omega
  simp only [oqsx_key_free]
  rw [if_neg hc]
  rfl

/-- Helper: the first `m < n` frees of a key with count `n` only decrement
the count and release nothing. -/
theorem freeIter_lt (m : Nat) : ∀ (key : OQSX_KEY) (n : Nat),
    key.references = (n : Int) → m < n →
    freeIter m (some key)
      = (some { key with references := ((n - m : Nat) : Int) }, []) := by
  induction m with
  | zero =>
    intro key n h _
    have hk : ({ key with references := ((n - 0 : Nat) : Int) } : OQSX_KEY) = key := by
      cases key
      simp_all
    rw [hk]
    rfl
  | succ m ih =>
    intro key n h hm
    have h2 : 1 < key.references := by omega
    simp only [freeIter]
    rw [oqsx_key_free_decrement key h2]
    have hk : ({ key with references := key.references - 1 } : OQSX_KEY).references
        = ((n - 1 : Nat) : Int) := by
      simp only []
      omega
    have hm' : m < n - 1 := by omega
    rw [ih _ (n - 1) hk hm']
    have hcast : ((n - 1 - m : Nat) : Int) = ((n - (m + 1) : Nat) : Int) := by
      omega
    simp only [List.nil_append]
    rw [hcast]

/-- Helper: the `n`-th free of a key with count `n ≥ 1` deallocates and
releases exactly the resources of `releasedByFree`. -/
theorem freeIter_exact : ∀ (n : Nat) (key : OQSX_KEY),
    key.references = (n : Int) → 1 ≤ n →
    freeIter n (some key) = (none, releasedByFree) := by
  intro n
  induction n with
  | zero => intro key _ h1; omega
  | succ m ih =>
    intro key h _
    simp only [freeIter]
    cases Nat.eq_zero_or_pos m with
    | inl hm0 =>
      subst hm0
      rw [oqsx_key_free_release key (by omega)]
      simp [freeIter]
    | inr hmpos =>
      rw [oqsx_key_free_decrement key (by omega)]
      have hk : ({ key with references := key.references - 1 } : OQSX_KEY).references
          = ((m : Nat) : Int) := by
        simp only []
        omega
      rw [ih _ hk hmpos]
      simp

/-- C1: over any sequence of frees on a key object with reference count `n`,
each of the first `n - 1` frees only decrements the count and has no other
visible effect, the `n`-th free (the one that brings the count to zero)
deallocates the object and releases the property string, the private and
public key buffers, the algorithm handle and the object itself exactly once
each, and a free on a `NULL` reference is a no-op. -/
theorem C1_free_refcount (key : OQSX_KEY) (n : Nat)
    (h : key.references = (n : Int)) (hn : 1 ≤ n) :
    (∀ m, m < n →
      freeIter m (some key)
        = (some { key with references := ((n - m : Nat) : Int) }, [])) ∧
    (freeIter n (some key)).1 = none ∧
    (∀ r, r ∈ releasedByFree → ((freeIter n (some key)).2).count r = 1) ∧
    oqsx_key_free none = (none, []) := by
  refine ⟨fun m hm => freeIter_lt m key n h hm, ?_, ?_, rfl⟩
  · rw [freeIter_exact n key h hn]
  · rw [freeIter_exact n key h hn]
    intro r hr
    fin_cases hr <;> rfl

/-- Witness for C1 on a key with reference count 2: the first free only
decrements, the second deallocates and releases each owned resource once. -/
theorem C1_free_refcount_witness :
    freeIter 1 (some keyEx2) = (some { keyEx2 with references := (1 : Int) }, []) ∧
    (freeIter 2 (some keyEx2)).1 = none ∧
    ((freeIter 2 (some keyEx2)).2).count Resource.object = 1 := by
  have h := C1_free_refcount keyEx2 2 rfl (by decide)
  refine ⟨?_, h.2.1, h.2.2.1 Resource.object (by decide)⟩
  have h1 := h.1 1 (by decide)
  simpa using h1

/-- Counterexample to C4 as stated: when the property-query copy fails after
the object, the algorithm handle and the display-name copy were allocated,
`oqsx_key_new` returns the error but the algorithm handle is among the
allocated resources and not among the freed ones (it leaks, as does the
display-name copy). -/
theorem C4_counterexample :
    (oqsx_key_new true (some kemEx) none true false "frodo640aes" true
        (some "provider=oqsprovider")).1 = NewResult.fail ∧
    Resource.handle ∈ (oqsx_key_new true (some kemEx) none true false "frodo640aes" true
        (some "provider=oqsprovider")).2.1 ∧
    Resource.handle ∉ (oqsx_key_new true (some kemEx) none true false "frodo640aes" true
        (some "provider=oqsprovider")).2.2 := by
  refine ⟨rfl, by decide, by decide⟩

/-- C4 (amended): the only detected failure after partial allocation is the
property-query copy; on it `oqsx_key_new` frees exactly the object before
returning the error, leaving the algorithm handle (and the display-name
copy, when it was made) unreleased.  A display-name copy failure is not
detected at all: construction returns success and the returned object's
name is absent. -/
theorem C4_amended_partial_rollback (kemNew : Option OQS_KEM)
    (sigNew : Option OQS_SIG) (tlsOk : Bool) (tls propqStr : String)
    (is_kem : Bool)
    (hres : (if is_kem then kemNew.isSome else sigNew.isSome) = true) :
    ((oqsx_key_new true kemNew sigNew tlsOk false tls is_kem (some propqStr)).1
        = NewResult.fail ∧
     (oqsx_key_new true kemNew sigNew tlsOk false tls is_kem (some propqStr)).2.2
        = [Resource.object] ∧
     Resource.handle ∈
       (oqsx_key_new true kemNew sigNew tlsOk false tls is_kem (some propqStr)).2.1 ∧
     (tlsOk = true → Resource.tlsName ∈
       (oqsx_key_new true kemNew sigNew tlsOk false tls is_kem (some propqStr)).2.1)) ∧
    (∀ key, (oqsx_key_new true kemNew sigNew false true tls is_kem (some propqStr)).1
        = NewResult.ok key → key.tls_name = none) := by
  cases is_kem with
  | false =>
    cases sigNew with
    | none => simp at hres
    | some sh =>
      refine ⟨⟨rfl, rfl, by simp [oqsx_key_new], ?_⟩, ?_⟩
      · intro htls
        subst htls
        simp [oqsx_key_new]
      · intro key hk
        simp only [oqsx_key_new] at hk
        cases hk
        rfl
  | true =>
    cases kemNew with
    | none => simp at hres
    | some kh =>
      refine ⟨⟨rfl, rfl, by simp [oqsx_key_new], ?_⟩, ?_⟩
      · intro htls
        subst htls
        simp [oqsx_key_new]
      · intro key hk
        simp only [oqsx_key_new] at hk
        cases hk
        rfl

/-- Witness for C4 (amended) at concrete inputs. -/
theorem C4_amended_partial_rollback_witness :
    (oqsx_key_new true (some kemEx) none true false "frodo640aes" true
        (some "provider=oqsprovider")).2.2 = [Resource.object] ∧
    Resource.tlsName ∈ (oqsx_key_new true (some kemEx) none true false "frodo640aes" true
        (some "provider=oqsprovider")).2.1 := by
  have h := C4_amended_partial_rollback (some kemEx) none true "frodo640aes"
    "provider=oqsprovider" true rfl
  exact ⟨h.1.2.1, h.1.2.2.2 rfl⟩
